import Mathlib

/-!
Verification development for the Resume-Maker application (src/app.py).

The file shallowly embeds the pure core of app.py: the HTML-escaping helpers,
the upload validator, the parallel-array form assembly, the JSON persistence
of resume records (modelled as an association list keyed by the composite
userId_resumeId string), the session handle, the render normalizer of the
template routes, and the signup/login flows over the users collection.
Werkzeug externals (secure_filename, generate_password_hash,
check_password_hash) are modelled as parameters.
-/

set_option maxRecDepth 4096

/-- Python whitespace characters recognised by str.strip (space, tab,
newline, carriage return, vertical tab, form feed). -/
def isPySpace (c : Char) : Bool :=
  c == ' ' || c == '\t' || c == '\n' || c == '\r' ||
  c == Char.ofNat 11 || c == Char.ofNat 12

/-- Python str.strip with no argument: remove leading and trailing
whitespace. -/
def pyStrip (s : String) : String :=
  ⟨((s.data.dropWhile isPySpace).reverse.dropWhile isPySpace).reverse⟩

/-- Python str.lower, character by character (ASCII is all the
application feeds it). -/
def pyLower (s : String) : String :=
  ⟨s.data.map Char.toLower⟩

/-- Python str.upper, character by character. -/
def pyUpper (s : String) : String :=
  ⟨s.data.map Char.toUpper⟩

/-- Split a character list at every character satisfying p, keeping empty
pieces, as Python str.split with an explicit separator does. -/
def splitPred (p : Char → Bool) : List Char → List (List Char)
  | [] => [[]]
  | x :: xs =>
    match splitPred p xs with
    | [] => [[]]
    | h :: t => if p x then [] :: h :: t else (x :: h) :: t

/-- Python str.split on an explicit one-character separator. -/
def splitOnChar (c : Char) (s : String) : List String :=
  (splitPred (fun x => x == c) s.data).map (fun l => ⟨l⟩)

/-- The double-quote character, written via its code point. -/
def dquoteChar : Char := Char.ofNat 34

/-- The single-quote character, written via its code point. -/
def squoteChar : Char := Char.ofNat 39

/-- Python str.replace for a single-character search pattern: every
occurrence of the character c is replaced by the string r. -/
def replaceChar (c : Char) (r : List Char) : List Char → List Char
  | [] => []
  | x :: xs => (if x = c then r else [x]) ++ replaceChar c r xs

/-- The character-list core of escape_html: the five replacements of
app.py lines 46-50 in source order, the ampersand first, then the angle
brackets and the two quote characters. -/
def escape_chars (s : List Char) : List Char :=
  replaceChar squoteChar "&#39;".data
    (replaceChar dquoteChar "&quot;".data
      (replaceChar '>' "&gt;".data
        (replaceChar '<' "&lt;".data
          (replaceChar '&' "&amp;".data s))))

/-- escape_html from app.py lines 42-50.  The falsy-input guard returns
the empty string, which coincides with running the five replacements on
the empty string. -/
def escape_html (s : String) : String :=
  ⟨escape_chars s.data⟩

/-- The index of the last occurrence of c in l, if any (str.rfind). -/
def lastIdxOf (c : Char) (l : List Char) : Option Nat :=
  ((List.range l.length).filter (fun i => l.getD i ' ' == c)).getLast?

/-- pathlib suffix of a plain file name, per the CPython rule: with i the
index of the last dot, the suffix is the substring from i when
0 < i < length - 1, and empty otherwise.  The call sites in generate pass
the output of werkzeug's secure_filename, which contains no path
separators, so the last-component step of pathlib is the identity here. -/
def pathSuffix (s : String) : String :=
  match lastIdxOf '.' s.data with
  | none => ""
  | some i => if 0 < i ∧ i < s.data.length - 1 then ⟨s.data.drop i⟩ else ""

/-- ALLOWED_EXT from app.py line 32. -/
def ALLOWED_EXT : List String := [".png", ".jpg", ".jpeg"]

/-- ALLOWED_MIMETYPES from app.py line 33. -/
def ALLOWED_MIMETYPES : List String := ["image/png", "image/jpeg"]

/-- MAX_CONTENT_LENGTH from app.py line 31: 2 MiB. -/
def MAX_CONTENT_LENGTH : Nat := 2 * 1024 * 1024

/-- allowed_file from app.py lines 63-69.  The declared mimetype is a
string as werkzeug's FileStorage.mimetype yields; the empty string is the
falsy value that represents an absent declared content type, and the
Python truthiness test tolerates it. -/
def allowed_file (filename : String) (mimetype : String) : Bool :=
  let ext := pyLower (pathSuffix filename)
  if ¬ (ext ∈ ALLOWED_EXT) then false
  else if mimetype ≠ "" ∧ ¬ (mimetype ∈ ALLOWED_MIMETYPES) then false
  else true

/-- The photo acceptance gate of generate (app.py lines 224-247): reject
when allowed_file fails, then reject when the measured byte size exceeds
MAX_CONTENT_LENGTH, otherwise accept. -/
def upload_accepted (filename mimetype : String) (size : Nat) : Bool :=
  if ¬ allowed_file filename mimetype then false
  else if size > MAX_CONTENT_LENGTH then false
  else true

/-- The skills parser of generate (app.py line 192): split the raw input
on commas, strip each piece, keep the pieces that are non-empty after
stripping. -/
def parse_skills (s : String) : List String :=
  ((splitOnChar ',' s).map pyStrip).filter (fun t => t ≠ "")

/-- One assembled experience block (app.py lines 204-210). -/
structure ExperienceEntry where
  title : String
  company : String
  duration : String
  description : String
deriving Repr, DecidableEq, Inhabited

/-- One assembled education block (app.py lines 216-221). -/
structure EducationEntry where
  degree : String
  university : String
  year : String
deriving Repr, DecidableEq, Inhabited

/-- Experience assembly from app.py lines 199-210: one record per entry of
the titles array; each companion array contributes its entry at the same
index when it has one and the empty string otherwise. -/
def assemble_experience (titles companies durations descriptions : List String) :
    List ExperienceEntry :=
  (List.range titles.length).map fun i =>
    ⟨titles.getD i "", companies.getD i "", durations.getD i "", descriptions.getD i ""⟩

/-- Education assembly from app.py lines 213-221, governed by the degrees
array. -/
def assemble_education (degrees universities years : List String) :
    List EducationEntry :=
  (List.range degrees.length).map fun i =>
    ⟨degrees.getD i "", universities.getD i "", years.getD i ""⟩

/-- The always-present scalar and collection fields of the data dict built
by generate (app.py lines 185-221), before the optional photo handling. -/
structure BaseFields where
  name : String
  title : String
  email : String
  phone : String
  address : String
  summary : String
  skills : List String
  languages : List String
  experience : List ExperienceEntry
  education : List EducationEntry
  created_at : String
deriving Repr, DecidableEq, Inhabited

/-- The raw form payload consumed by generate: the scalar inputs, the
multi-value languages field, the seven parallel arrays and the requested
template name. -/
structure RawForm where
  name : String
  title : String
  email : String
  phone : String
  address : String
  summary : String
  skills : String
  languages : List String
  experience_title : List String
  experience_company : List String
  experience_duration : List String
  experience_description : List String
  education_degree : List String
  education_university : List String
  education_year : List String
  template : String
deriving Repr, DecidableEq, Inhabited

/-- The field-assembly part of generate (app.py lines 185-221): strip the
scalars, parse skills and languages, zip the parallel arrays. -/
def assemble_base (f : RawForm) (created : String) : BaseFields :=
  { name := pyStrip f.name
    title := pyStrip f.title
    email := pyStrip f.email
    phone := pyStrip f.phone
    address := pyStrip f.address
    summary := pyStrip f.summary
    skills := parse_skills f.skills
    languages := (f.languages.map pyStrip).filter (fun t => t ≠ "")
    experience := assemble_experience f.experience_title f.experience_company
      f.experience_duration f.experience_description
    education := assemble_education f.education_degree f.education_university
      f.education_year
    created_at := created }

/-- The persisted resume data dict as a JSON object: every key is optional
so that a key truly absent from the stored document is representable.
generate stores all base keys, always stores photo_exists, and stores the
photo key only when the photo file was saved. -/
structure StoredDoc where
  name : Option String
  title : Option String
  email : Option String
  phone : Option String
  address : Option String
  summary : Option String
  skills : Option (List String)
  languages : Option (List String)
  experience : Option (List ExperienceEntry)
  education : Option (List EducationEntry)
  photo : Option String
  photo_exists : Option Bool
  created_at : Option String
deriving Repr, DecidableEq, Inhabited

/-- The data dict that generate persists: all base fields present, the
photo key present exactly when a path was recorded, photo_exists always
present. -/
def mkDoc (b : BaseFields) (photo : Option String) (photoExists : Bool) : StoredDoc :=
  { name := some b.name
    title := some b.title
    email := some b.email
    phone := some b.phone
    address := some b.address
    summary := some b.summary
    skills := some b.skills
    languages := some b.languages
    experience := some b.experience
    education := some b.education
    photo := photo
    photo_exists := some photoExists
    created_at := some b.created_at }

/-- The persisted resume record document (app.py line 268): id, user_id
and the data dict. -/
structure ResumeRecord where
  id : String
  user_id : String
  data : StoredDoc
deriving Repr, DecidableEq, Inhabited

/-- The store-and-session state touched by generate and the template
routes: the resumes directory as an association list keyed by the
userId_resumeId composite name (a later write to the same key shadows an
earlier one, as a file overwrite would), and the session pointer
last_resume_file. -/
structure GenState where
  resumes : List (String × ResumeRecord)
  last_resume_file : Option String
deriving Repr, DecidableEq, Inhabited

/-- The eight recognised template names (app.py line 274). -/
def validTemplates : List String :=
  ["template1", "template2", "template3", "template4",
   "template5", "template6", "template7", "template8"]

/-- Outcome of the generate route: a redirect to the dashboard carrying a
flashed error message, or a redirect to the chosen template view. -/
inductive GenResult
  | redirectDashboard (msg : String)
  | redirectTemplate (t : String)
deriving Repr, DecidableEq, Inhabited

/-- The tail of generate (app.py lines 263-278): persist the record under
the composite key, point the session at it, and only then check the
requested template name, redirecting to the dashboard with an error if it
is not one of the eight. -/
def persist_and_template (st : GenState) (userId resumeId : String)
    (doc : StoredDoc) (tmpl : String) : GenState × GenResult :=
  let key := userId ++ "_" ++ resumeId
  let record : ResumeRecord := ⟨resumeId, userId, doc⟩
  let st1 : GenState := ⟨(key, record) :: st.resumes, some key⟩
  if tmpl ∈ validTemplates then (st1, .redirectTemplate tmpl)
  else (st1, .redirectDashboard "Invalid template selected.")

/-- An uploaded photo file as generate sees it: the raw filename sent by
the client (its truthiness decides whether a photo was supplied at all),
the secure_filename-sanitised name actually validated, the declared
mimetype (empty string when absent), the measured stream size, and
whether the save-to-disk call succeeds (the environment decides that). -/
structure PhotoUpload where
  rawFilename : String
  filename : String
  mimetype : String
  size : Nat
  saveSucceeds : Bool
deriving Repr, DecidableEq, Inhabited

/-- The generate route (app.py lines 180-283), from the assembled form
data onward: optional photo validation and saving, persistence of the
record, session update and template-name check.  userId, resumeId and
photoId stand for the session user id and the two freshly generated
hex ids. -/
def generate (st : GenState) (userId resumeId photoId : String)
    (f : RawForm) (created : String) (photo : Option PhotoUpload) :
    GenState × GenResult :=
  let b := assemble_base f created
  match photo with
  | none => persist_and_template st userId resumeId (mkDoc b none false) f.template
  | some p =>
    if p.rawFilename = "" then
      persist_and_template st userId resumeId (mkDoc b none false) f.template
    else if ¬ allowed_file p.filename p.mimetype then
      (st, .redirectDashboard "Invalid file type. Only PNG and JPEG allowed.")
    else if p.size > MAX_CONTENT_LENGTH then
      (st, .redirectDashboard "File too large. Maximum allowed is 2MB.")
    else if p.saveSucceeds then
      persist_and_template st userId resumeId
        (mkDoc b (some ("/static/uploads/" ++ photoId ++ pyLower (pathSuffix p.filename)))
          true) f.template
    else
      persist_and_template st userId resumeId (mkDoc b none false) f.template

/-- The normalized data dict built by the template routes (app.py lines
299-312): every key read with a default, the photo key read with no
default (None when absent). -/
structure NormalizedData where
  name : String
  title : String
  email : String
  phone : String
  address : String
  summary : String
  skills : List String
  languages : List String
  experience : List ExperienceEntry
  education : List EducationEntry
  photo : Option String
  photo_exists : Bool
deriving Repr, DecidableEq, Inhabited

/-- normalized_data from app.py lines 299-312. -/
def normalized_data (d : StoredDoc) : NormalizedData :=
  { name := d.name.getD ""
    title := d.title.getD ""
    email := d.email.getD ""
    phone := d.phone.getD ""
    address := d.address.getD ""
    summary := d.summary.getD ""
    skills := d.skills.getD []
    languages := d.languages.getD []
    experience := d.experience.getD []
    education := d.education.getD []
    photo := d.photo
    photo_exists := d.photo_exists.getD false }

/-- Python str.split with no argument: split on whitespace runs and drop
empty pieces. -/
def pySplitWs (s : String) : List String :=
  ((splitPred isPySpace s.data).map (fun l => (⟨l⟩ : String))).filter (fun t => t ≠ "")

/-- initials from app.py lines 60-61: the upper-cased first character of
each of the first two whitespace tokens of the name, with a blank
substituted for a falsy name. -/
def initials (name : String) : String :=
  String.join (((pySplitWs (if name = "" then " " else name)).take 2).map
    (fun w => pyUpper ⟨w.data.take 1⟩))

/-- The five template variants that additionally receive flat top-level
variable bindings (app.py line 325). -/
def flatVarTemplates : List String :=
  ["template1", "template5", "template6", "template7", "template8"]

/-- The flat top-level bindings added by context.update (app.py lines
326-337). -/
structure FlatBindings where
  name : String
  title : String
  email : String
  phone : String
  address : String
  summary : String
  skills : List String
  languages : List String
  experience : List ExperienceEntry
  education : List EducationEntry
deriving Repr, DecidableEq, Inhabited

/-- The render context built by the template routes (app.py lines
314-339): the nested data object, the photo fields, the computed
initials, and, for the templates listed in flatVarTemplates, the flat
bindings copied from the same normalized data.  The three sanitizer
callables also placed in the context are the pure functions escape_html,
render_inline and render_html and carry no data. -/
structure RenderContext where
  data : NormalizedData
  photo : Option String
  photo_exists : Bool
  initials : String
  flat : Option FlatBindings
deriving Repr, DecidableEq, Inhabited

/-- Context assembly of a template route (app.py lines 314-337). -/
def build_context (template : String) (nd : NormalizedData) : RenderContext :=
  { data := nd
    photo := nd.photo
    photo_exists := nd.photo_exists
    initials := initials nd.name
    flat :=
      if template ∈ flatVarTemplates then
        some ⟨nd.name, nd.title, nd.email, nd.phone, nd.address, nd.summary,
              nd.skills, nd.languages, nd.experience, nd.education⟩
      else none }

/-- Outcome of a template route. -/
inductive RenderResult
  | abortNoResume
  | abortStaleHandle
  | render (template : String) (ctx : RenderContext)
deriving Repr, DecidableEq, Inhabited

/-- A template route (app.py lines 286-342): fetch the session handle,
load the record it points to, normalize its data dict and build the
render context. -/
def template_route (template : String) (st : GenState) : RenderResult :=
  match st.last_resume_file with
  | none => .abortNoResume
  | some handle =>
    match List.lookup handle st.resumes with
    | none => .abortStaleHandle
    | some payload => .render template (build_context template (normalized_data payload.data))

/-- A stored account (app.py lines 94-105). -/
structure User where
  id : String
  name : String
  email : String
  password : String
  created_at : String
deriving Repr, DecidableEq, Inhabited

/-- find_user_by_email from app.py lines 88-92: a linear scan comparing
the stored email to the query for plain string equality. -/
def find_user_by_email (users : List User) (email : String) : Option User :=
  users.find? (fun u => u.email == email)

/-- The non-sensitive session user stored on signup and login. -/
structure SessionUser where
  id : String
  name : String
  email : String
deriving Repr, DecidableEq, Inhabited

/-- Outcome of the signup and login flows: a flashed error, or a session
user on success. -/
inductive AuthResult
  | flashError (msg : String)
  | success (u : SessionUser)
deriving Repr, DecidableEq, Inhabited

/-- The signup POST flow (app.py lines 126-146): the name is stripped,
the email stripped and lower-cased, the four fields checked for
truthiness, the passwords compared, the email probed for a duplicate,
and the new user appended (add_user, lines 94-105).  hash stands for
werkzeug's generate_password_hash; userId and created for the generated
id and timestamp. -/
def signup (users : List User) (name email pwd confirm : String)
    (hash : String → String) (userId created : String) : List User × AuthResult :=
  let name1 := pyStrip name
  let email1 := pyLower (pyStrip email)
  if name1 = "" ∨ email1 = "" ∨ pwd = "" ∨ confirm = "" then
    (users, .flashError "All fields are required.")
  else if pwd ≠ confirm then
    (users, .flashError "Passwords do not match.")
  else if (find_user_by_email users email1).isSome then
    (users, .flashError "E-mail already registered.")
  else
    (users ++ [⟨userId, name1, email1, hash pwd, created⟩],
     .success ⟨userId, name1, email1⟩)

/-- The login POST flow (app.py lines 148-159): the email stripped and
lower-cased, the account looked up, the password hash checked.  check
stands for werkzeug's check_password_hash. -/
def login (users : List User) (email pwd : String)
    (check : String → String → Bool) : AuthResult :=
  let email1 := pyLower (pyStrip email)
  match find_user_by_email users email1 with
  | some u =>
    if check u.password pwd then .success ⟨u.id, u.name, u.email⟩
    else .flashError "Invalid credentials."
  | none => .flashError "Invalid credentials."

/-- An empty raw form used for concrete evaluations. -/
def emptyForm : RawForm :=
  ⟨"", "", "", "", "", "", "", [], [], [], [], [], [], [], [], "template1"⟩

/-! ## Helper lemmas -/

theorem mem_replaceChar {x c : Char} {r s : List Char}
    (h : x ∈ replaceChar c r s) : x ∈ r ∨ (x ∈ s ∧ x ≠ c) := by
  induction s with
  | nil => simp [replaceChar] at h
  | cons a s ih =>
    simp only [replaceChar, List.mem_append] at h
    rcases h with h | h
    · by_cases hac : a = c
      · rw [if_pos hac] at h
        exact Or.inl h
      · rw [if_neg hac] at h
        simp only [List.mem_singleton] at h
        subst h
        exact Or.inr ⟨List.mem_cons_self x s, hac⟩
    · rcases ih h with h1 | ⟨h1, h2⟩
      · exact Or.inl h1
      · exact Or.inr ⟨List.mem_cons_of_mem a h1, h2⟩

theorem replaceChar_eq_self {c : Char} (r : List Char) {s : List Char}
    (h : c ∉ s) : replaceChar c r s = s := by
  induction s with
  | nil => rfl
  | cons a s ih =>
    have hac : a ≠ c := fun e => h (e ▸ List.mem_cons_self a s)
    simp only [replaceChar, if_neg hac, List.singleton_append, List.cons.injEq, true_and]
    exact ih (fun hc => h (List.mem_cons_of_mem a hc))

theorem not_mem_escape_lt (s : String) : '<' ∉ (escape_html s).data := by
  intro h
  rcases mem_replaceChar h with h | ⟨h, _⟩
  · exact absurd h (by decide)
  rcases mem_replaceChar h with h | ⟨h, _⟩
  · exact absurd h (by decide)
  rcases mem_replaceChar h with h | ⟨h, _⟩
  · exact absurd h (by decide)
  rcases mem_replaceChar h with h | ⟨_, h2⟩
  · exact absurd h (by decide)
  · exact h2 rfl

theorem not_mem_escape_gt (s : String) : '>' ∉ (escape_html s).data := by
  intro h
  rcases mem_replaceChar h with h | ⟨h, _⟩
  · exact absurd h (by decide)
  rcases mem_replaceChar h with h | ⟨h, _⟩
  · exact absurd h (by decide)
  rcases mem_replaceChar h with h | ⟨_, h2⟩
  · exact absurd h (by decide)
  · exact h2 rfl

theorem not_mem_escape_dquote (s : String) : dquoteChar ∉ (escape_html s).data := by
  intro h
  rcases mem_replaceChar h with h | ⟨h, _⟩
  · exact absurd h (by decide)
  rcases mem_replaceChar h with h | ⟨_, h2⟩
  · exact absurd h (by decide)
  · exact h2 rfl

theorem not_mem_escape_squote (s : String) : squoteChar ∉ (escape_html s).data := by
  intro h
  rcases mem_replaceChar h with h | ⟨_, h2⟩
  · exact absurd h (by decide)
  · exact h2 rfl

theorem not_mem_amp_escape {x : Char} (hx : x ∉ "&amp;".data) {s : String}
    (hs : x ∉ (escape_html s).data) :
    x ∉ replaceChar '&' "&amp;".data (escape_html s).data := fun h =>
  match mem_replaceChar h with
  | Or.inl h1 => hx h1
  | Or.inr ⟨h1, _⟩ => hs h1

/-! ## C5: escape_html under double application -/

/-- C5 counterexample: escape_html applied twice is not idempotent with
respect to the emitted entities.  On the input consisting of one left
angle bracket, the first application yields the lt entity, and the second
application re-escapes that entity's ampersand, producing amp-lt; the
same happens to a lone ampersand. -/
theorem c5_counterexample :
    escape_html (escape_html "<") = "&amp;lt;" ∧
    escape_html (escape_html "<") ≠ escape_html "<" ∧
    escape_html (escape_html "&") = "&amp;amp;" := by decide

/-- C5 amended: a single application of escape_html fully neutralises the
four non-ampersand metacharacters (its output contains no raw left or
right angle bracket and neither quote character), and within that single
pass no entity it introduces is double-escaped.  escape_html is however
not idempotent: a second application reduces to re-escaping every
ampersand of the first output, entity ampersands included. -/
theorem c5_escape_second_application : ∀ s : String,
    (∀ ch ∈ (escape_html s).data,
      ch ≠ '<' ∧ ch ≠ '>' ∧ ch ≠ dquoteChar ∧ ch ≠ squoteChar) ∧
    escape_html (escape_html s) =
      ⟨replaceChar '&' "&amp;".data (escape_html s).data⟩ := by
  intro s
  constructor
  · intro ch hch
    exact ⟨fun e => not_mem_escape_lt s (e ▸ hch),
           fun e => not_mem_escape_gt s (e ▸ hch),
           fun e => not_mem_escape_dquote s (e ▸ hch),
           fun e => not_mem_escape_squote s (e ▸ hch)⟩
  · show (⟨escape_chars (escape_html s).data⟩ : String) = _
    unfold escape_chars
    rw [replaceChar_eq_self _ (not_mem_amp_escape (by decide) (not_mem_escape_lt s)),
        replaceChar_eq_self _ (not_mem_amp_escape (by decide) (not_mem_escape_gt s)),
        replaceChar_eq_self _ (not_mem_amp_escape (by decide) (not_mem_escape_dquote s)),
        replaceChar_eq_self _ (not_mem_amp_escape (by decide) (not_mem_escape_squote s))]

/-- C5 witness: the amended statement evaluated on a concrete input. -/
theorem c5_witness :
    escape_html (escape_html "<&") =
      ⟨replaceChar '&' "&amp;".data (escape_html "<&").data⟩ ∧
    ('<' ∈ (escape_html "<&").data → False) :=
  ⟨(c5_escape_second_application "<&").2,
   fun h => ((c5_escape_second_application "<&").1 '<' h).1 rfl⟩

/-! ## C1: parallel-array assembly -/

theorem length_assemble_experience (t c d e : List String) :
    (assemble_experience t c d e).length = t.length := by
  simp [assemble_experience]

theorem length_assemble_education (g u y : List String) :
    (assemble_education g u y).length = g.length := by
  simp [assemble_education]

theorem assemble_experience_getD (t c d e : List String) {i : Nat} (h : i < t.length) :
    (assemble_experience t c d e).getD i default =
      ⟨t.getD i "", c.getD i "", d.getD i "", e.getD i ""⟩ := by
  have hlen : i < (assemble_experience t c d e).length := by
    rw [length_assemble_experience]; exact h
  rw [List.getD_eq_getElem _ _ hlen]
  simp [assemble_experience]

theorem assemble_education_getD (g u y : List String) {i : Nat} (h : i < g.length) :
    (assemble_education g u y).getD i default =
      ⟨g.getD i "", u.getD i "", y.getD i ""⟩ := by
  have hlen : i < (assemble_education g u y).length := by
    rw [length_assemble_education]; exact h
  rw [List.getD_eq_getElem _ _ hlen]
  simp [assemble_education]

theorem getD_take_of_lt (c : List String) {n i : Nat} (h : i < n) :
    (c.take n).getD i "" = c.getD i "" := by
  by_cases hc : i < c.length
  · have h1 : i < (c.take n).length := by
      rw [List.length_take]; omega
    rw [List.getD_eq_getElem _ _ h1, List.getD_eq_getElem _ _ hc]
    apply List.getElem_take
  · have h2 : (c.take n).length ≤ i := by
      rw [List.length_take]; omega
    rw [List.getD_eq_default _ _ h2, List.getD_eq_default _ _ (by omega)]

/-- C1: for every experience submission the number of assembled records is
the length of the titles array (degrees for education); at every index
where a companion array is shorter, the corresponding field is the empty
string; companion entries beyond the governing length are dropped, in that
the assembly only reads the first titles-many entries of each companion
array; and three titles with two companies yield three records with an
empty third company. -/
theorem c1_parallel_array_assembly :
    (∀ t c d e : List String,
      (assemble_experience t c d e).length = t.length ∧
      (∀ i, i < t.length → c.length ≤ i →
        ((assemble_experience t c d e).getD i default).company = "") ∧
      (∀ i, i < t.length → d.length ≤ i →
        ((assemble_experience t c d e).getD i default).duration = "") ∧
      (∀ i, i < t.length → e.length ≤ i →
        ((assemble_experience t c d e).getD i default).description = "") ∧
      assemble_experience t c d e =
        assemble_experience t (c.take t.length) (d.take t.length) (e.take t.length)) ∧
    (∀ g u y : List String,
      (assemble_education g u y).length = g.length ∧
      (∀ i, i < g.length → u.length ≤ i →
        ((assemble_education g u y).getD i default).university = "") ∧
      (∀ i, i < g.length → y.length ≤ i →
        ((assemble_education g u y).getD i default).year = "") ∧
      assemble_education g u y = assemble_education g (u.take g.length) (y.take g.length)) ∧
    assemble_experience ["T1", "T2", "T3"] ["C1", "C2"] [] [] =
      [⟨"T1", "C1", "", ""⟩, ⟨"T2", "C2", "", ""⟩, ⟨"T3", "", "", ""⟩] := by
  refine ⟨fun t c d e => ⟨length_assemble_experience t c d e, ?_, ?_, ?_, ?_⟩,
          fun g u y => ⟨length_assemble_education g u y, ?_, ?_, ?_⟩, by decide⟩
  · intro i hi hc
    rw [assemble_experience_getD t c d e hi]
    exact List.getD_eq_default c "" hc
  · intro i hi hd
    rw [assemble_experience_getD t c d e hi]
    exact List.getD_eq_default d "" hd
  · intro i hi he
    rw [assemble_experience_getD t c d e hi]
    exact List.getD_eq_default e "" he
  · unfold assemble_experience
    refine List.map_congr_left fun i hi => ?_
    have h : i < t.length := List.mem_range.mp hi
    rw [getD_take_of_lt c h, getD_take_of_lt d h, getD_take_of_lt e h]
  · intro i hi hu
    rw [assemble_education_getD g u y hi]
    exact List.getD_eq_default u "" hu
  · intro i hi hy
    rw [assemble_education_getD g u y hi]
    exact List.getD_eq_default y "" hy
  · unfold assemble_education
    refine List.map_congr_left fun i hi => ?_
    have h : i < g.length := List.mem_range.mp hi
    rw [getD_take_of_lt u h, getD_take_of_lt y h]

/-- C1 witness: the record-count and empty-fill parts applied to the
three-titles, two-companies instance. -/
theorem c1_witness :
    (assemble_experience ["T1", "T2", "T3"] ["C1", "C2"] [] []).length = 3 ∧
    ((assemble_experience ["T1", "T2", "T3"] ["C1", "C2"] [] []).getD 2 default).company = "" := by
  have h := c1_parallel_array_assembly.1 ["T1", "T2", "T3"] ["C1", "C2"] [] []
  exact ⟨h.1, h.2.1 2 (by decide) (by decide)⟩

/-! ## Persistence helpers -/

theorem lookup_cons_self {α β : Type} [BEq α] [LawfulBEq α] (a : α) (b : β)
    (l : List (α × β)) : List.lookup a ((a, b) :: l) = some b := by
  simp [List.lookup]

theorem persist_and_template_eq (st : GenState) (u r : String) (doc : StoredDoc)
    (tmpl : String) :
    persist_and_template st u r doc tmpl =
      (⟨(u ++ "_" ++ r, ⟨r, u, doc⟩) :: st.resumes, some (u ++ "_" ++ r)⟩,
       if tmpl ∈ validTemplates then GenResult.redirectTemplate tmpl
       else GenResult.redirectDashboard "Invalid template selected.") := by
  by_cases h : tmpl ∈ validTemplates <;> simp [persist_and_template, h]

theorem persist_and_template_fst (st : GenState) (u r : String) (doc : StoredDoc)
    (tmpl : String) :
    (persist_and_template st u r doc tmpl).1 =
      ⟨(u ++ "_" ++ r, ⟨r, u, doc⟩) :: st.resumes, some (u ++ "_" ++ r)⟩ := by
  rw [persist_and_template_eq]

theorem generate_none_eq (st : GenState) (u r pid created : String) (f : RawForm) :
    generate st u r pid f created none =
      persist_and_template st u r (mkDoc (assemble_base f created) none false) f.template :=
  rfl

theorem generate_some_empty_raw (st : GenState) (u r pid created : String)
    (f : RawForm) (p : PhotoUpload) (h : p.rawFilename = "") :
    generate st u r pid f created (some p) =
      persist_and_template st u r (mkDoc (assemble_base f created) none false) f.template := by
  simp only [generate]
  rw [if_pos h]

theorem generate_some_bad_type (st : GenState) (u r pid created : String)
    (f : RawForm) (p : PhotoUpload) (h1 : ¬ p.rawFilename = "")
    (h2 : ¬ allowed_file p.filename p.mimetype = true) :
    generate st u r pid f created (some p) =
      (st, GenResult.redirectDashboard "Invalid file type. Only PNG and JPEG allowed.") := by
  simp only [generate]
  rw [if_neg h1, if_pos h2]

theorem generate_some_too_large (st : GenState) (u r pid created : String)
    (f : RawForm) (p : PhotoUpload) (h1 : ¬ p.rawFilename = "")
    (h2 : allowed_file p.filename p.mimetype = true)
    (h3 : p.size > MAX_CONTENT_LENGTH) :
    generate st u r pid f created (some p) =
      (st, GenResult.redirectDashboard "File too large. Maximum allowed is 2MB.") := by
  simp only [generate]
  rw [if_neg h1, if_neg (not_not_intro h2), if_pos h3]

theorem generate_some_save_ok (st : GenState) (u r pid created : String)
    (f : RawForm) (p : PhotoUpload) (h1 : ¬ p.rawFilename = "")
    (h2 : allowed_file p.filename p.mimetype = true)
    (h3 : ¬ p.size > MAX_CONTENT_LENGTH) (h4 : p.saveSucceeds = true) :
    generate st u r pid f created (some p) =
      persist_and_template st u r
        (mkDoc (assemble_base f created)
          (some ("/static/uploads/" ++ pid ++ pyLower (pathSuffix p.filename))) true)
        f.template := by
  simp only [generate]
  rw [if_neg h1, if_neg (not_not_intro h2), if_neg h3, if_pos h4]

theorem generate_some_save_fail (st : GenState) (u r pid created : String)
    (f : RawForm) (p : PhotoUpload) (h1 : ¬ p.rawFilename = "")
    (h2 : allowed_file p.filename p.mimetype = true)
    (h3 : ¬ p.size > MAX_CONTENT_LENGTH) (h4 : p.saveSucceeds = false) :
    generate st u r pid f created (some p) =
      persist_and_template st u r (mkDoc (assemble_base f created) none false) f.template := by
  simp only [generate]
  rw [if_neg h1, if_neg (not_not_intro h2), if_neg h3, if_neg (by rw [h4]; exact Bool.false_ne_true)]

/-! ## C2: invalid template name -/

/-- C2 counterexample: with an empty store and no session handle, a
submission requesting the unrecognised name template9 is redirected to
the dashboard with the validation error, yet the resume record has been
written to the store and the session handle now points at it, because
generate persists and updates the session before checking the template
name. -/
theorem c2_counterexample :
    (generate ⟨[], none⟩ "u" "r" "p" { emptyForm with template := "template9" } "t0" none).2 =
      GenResult.redirectDashboard "Invalid template selected." ∧
    (generate ⟨[], none⟩ "u" "r" "p" { emptyForm with template := "template9" } "t0" none).1.resumes ≠
      [] ∧
    (generate ⟨[], none⟩ "u" "r" "p" { emptyForm with template := "template9" } "t0"
        none).1.last_resume_file = some "u_r" := by decide

/-- C2 amended: every form submission whose requested template name is
not one of the 8 recognized names is rejected with a validation error
(one of the three dashboard redirects) and never reaches a template
view.  When the rejection is the template error, the assembled resume
record has already been written to the store and the session handle
already updated to point at it; when the rejection is instead a photo
validation error (invalid type or oversize), it happens before
persistence and the whole state, store and session handle alike, is
unchanged. -/
theorem c2_invalid_template (st : GenState) (u r pid created : String) (f : RawForm)
    (photo : Option PhotoUpload) (h : f.template ∉ validTemplates) :
    ((generate st u r pid f created photo).2 =
        GenResult.redirectDashboard "Invalid template selected." ∨
     (generate st u r pid f created photo).2 =
        GenResult.redirectDashboard "Invalid file type. Only PNG and JPEG allowed." ∨
     (generate st u r pid f created photo).2 =
        GenResult.redirectDashboard "File too large. Maximum allowed is 2MB.") ∧
    ((generate st u r pid f created photo).2 =
        GenResult.redirectDashboard "Invalid template selected." →
      ∃ (ph : Option String) (pe : Bool),
        generate st u r pid f created photo =
          (⟨(u ++ "_" ++ r, ⟨r, u, mkDoc (assemble_base f created) ph pe⟩) :: st.resumes,
            some (u ++ "_" ++ r)⟩,
           GenResult.redirectDashboard "Invalid template selected.")) ∧
    ((generate st u r pid f created photo).2 ≠
        GenResult.redirectDashboard "Invalid template selected." →
      (generate st u r pid f created photo).1 = st) := by
  have hP : ∀ (ph : Option String) (pe : Bool),
      persist_and_template st u r (mkDoc (assemble_base f created) ph pe) f.template =
        (⟨(u ++ "_" ++ r, ⟨r, u, mkDoc (assemble_base f created) ph pe⟩) :: st.resumes,
          some (u ++ "_" ++ r)⟩,
         GenResult.redirectDashboard "Invalid template selected.") := by
    intro ph pe
    rw [persist_and_template_eq, if_neg h]
  cases photo with
  | none =>
    rw [generate_none_eq, hP none false]
    exact ⟨Or.inl rfl, fun _ => ⟨none, false, rfl⟩, fun hne => absurd rfl hne⟩
  | some p =>
    by_cases h1 : p.rawFilename = ""
    · rw [generate_some_empty_raw st u r pid created f p h1, hP none false]
      exact ⟨Or.inl rfl, fun _ => ⟨none, false, rfl⟩, fun hne => absurd rfl hne⟩
    · by_cases h2 : allowed_file p.filename p.mimetype = true
      · by_cases h3 : p.size > MAX_CONTENT_LENGTH
        · rw [generate_some_too_large st u r pid created f p h1 h2 h3]
          refine ⟨Or.inr (Or.inr rfl), fun he => ?_, fun _ => rfl⟩
          have he2 : GenResult.redirectDashboard "File too large. Maximum allowed is 2MB." =
              GenResult.redirectDashboard "Invalid template selected." := he
          exact absurd he2 (by decide)
        · cases h4 : p.saveSucceeds
          · rw [generate_some_save_fail st u r pid created f p h1 h2 h3 h4, hP none false]
            exact ⟨Or.inl rfl, fun _ => ⟨none, false, rfl⟩, fun hne => absurd rfl hne⟩
          · rw [generate_some_save_ok st u r pid created f p h1 h2 h3 h4,
                hP (some ("/static/uploads/" ++ pid ++ pyLower (pathSuffix p.filename))) true]
            exact ⟨Or.inl rfl, fun _ => ⟨_, _, rfl⟩, fun hne => absurd rfl hne⟩
      · rw [generate_some_bad_type st u r pid created f p h1 h2]
        refine ⟨Or.inr (Or.inl rfl), fun he => ?_, fun _ => rfl⟩
        have he2 : GenResult.redirectDashboard "Invalid file type. Only PNG and JPEG allowed." =
            GenResult.redirectDashboard "Invalid template selected." := he
        exact absurd he2 (by decide)

/-- C2 witness: the amended statement evaluated at the template9
instance with no photo. -/
theorem c2_witness :
    (generate ⟨[], none⟩ "u" "r" "p" { emptyForm with template := "template9" } "t0" none).2 =
      GenResult.redirectDashboard "Invalid template selected." ∧
    (∃ (ph : Option String) (pe : Bool),
      generate ⟨[], none⟩ "u" "r" "p" { emptyForm with template := "template9" } "t0" none =
        (⟨("u" ++ "_" ++ "r",
            ⟨"r", "u",
             mkDoc (assemble_base { emptyForm with template := "template9" } "t0") ph pe⟩) :: [],
          some ("u" ++ "_" ++ "r")⟩,
         GenResult.redirectDashboard "Invalid template selected.")) := by
  have h := c2_invalid_template ⟨[], none⟩ "u" "r" "p" "t0"
    { emptyForm with template := "template9" } none (by decide)
  exact ⟨by decide, h.2.1 (by decide)⟩

/-! ## C3: persist, reload, normalize round trip -/

/-- C3: a data dict persisted by generate (all base fields present, the
photo key present exactly when a photo path was recorded, photo_exists
always present) and then reloaded through the stored session handle by a
template route normalizes back to exactly the stored values; and on an
arbitrary stored document the normalizer returns the stored value of
every present key, falling back to its default (empty string, empty
list, None for photo, False for photo_exists) only when the key is
absent. -/
theorem c3_round_trip :
    (∀ (st : GenState) (u r tmpl template : String) (b : BaseFields)
        (photo : Option String),
      (persist_and_template st u r (mkDoc b photo photo.isSome) tmpl).1.last_resume_file =
        some (u ++ "_" ++ r) ∧
      template_route template
          (persist_and_template st u r (mkDoc b photo photo.isSome) tmpl).1 =
        RenderResult.render template (build_context template
          ⟨b.name, b.title, b.email, b.phone, b.address, b.summary,
           b.skills, b.languages, b.experience, b.education, photo, photo.isSome⟩)) ∧
    (∀ d : StoredDoc,
      (normalized_data d).name = d.name.getD "" ∧
      (normalized_data d).title = d.title.getD "" ∧
      (normalized_data d).email = d.email.getD "" ∧
      (normalized_data d).phone = d.phone.getD "" ∧
      (normalized_data d).address = d.address.getD "" ∧
      (normalized_data d).summary = d.summary.getD "" ∧
      (normalized_data d).skills = d.skills.getD [] ∧
      (normalized_data d).languages = d.languages.getD [] ∧
      (normalized_data d).experience = d.experience.getD [] ∧
      (normalized_data d).education = d.education.getD [] ∧
      (normalized_data d).photo = d.photo ∧
      (normalized_data d).photo_exists = d.photo_exists.getD false) := by
  refine ⟨fun st u r tmpl template b photo => ?_, fun d =>
    ⟨rfl, rfl, rfl, rfl, rfl, rfl, rfl, rfl, rfl, rfl, rfl, rfl⟩⟩
  rw [persist_and_template_fst]
  refine ⟨rfl, ?_⟩
  simp only [template_route, lookup_cons_self]
  rfl

/-! ## C10: photo save failure does not abort assembly -/

/-- C10: when the uploaded photo passes the type and size validation but
the save-to-disk step fails, generate does not abort: the resume record
is still persisted under the composite key with photo_exists stored as
False and no photo key, the session handle still points at it, and a
valid template request still redirects to the template view. -/
theorem c10_photo_save_failure (st : GenState) (u r pid created : String)
    (f : RawForm) (p : PhotoUpload) (h1 : p.rawFilename ≠ "")
    (h2 : allowed_file p.filename p.mimetype = true)
    (h3 : p.size ≤ MAX_CONTENT_LENGTH) (h4 : p.saveSucceeds = false) :
    (generate st u r pid f created (some p)).1.last_resume_file = some (u ++ "_" ++ r) ∧
    List.lookup (u ++ "_" ++ r) (generate st u r pid f created (some p)).1.resumes =
      some ⟨r, u, mkDoc (assemble_base f created) none false⟩ ∧
    (mkDoc (assemble_base f created) none false).photo = none ∧
    (mkDoc (assemble_base f created) none false).photo_exists = some false ∧
    (f.template ∈ validTemplates →
      (generate st u r pid f created (some p)).2 = GenResult.redirectTemplate f.template) := by
  rw [generate_some_save_fail st u r pid created f p h1 h2 (by omega) h4,
      persist_and_template_eq]
  exact ⟨rfl, lookup_cons_self _ _ _, rfl, rfl, fun ht => by rw [if_pos ht]⟩

/-- C10 witness: the theorem applied to a concrete valid png upload whose
save step fails. -/
theorem c10_witness :
    (generate ⟨[], none⟩ "u" "r" "p" emptyForm "t0"
        (some ⟨"a.png", "a.png", "image/png", 100, false⟩)).1.last_resume_file =
      some ("u" ++ "_" ++ "r") ∧
    (generate ⟨[], none⟩ "u" "r" "p" emptyForm "t0"
        (some ⟨"a.png", "a.png", "image/png", 100, false⟩)).2 =
      GenResult.redirectTemplate "template1" := by
  have h := c10_photo_save_failure ⟨[], none⟩ "u" "r" "p" "t0" emptyForm
    ⟨"a.png", "a.png", "image/png", 100, false⟩ (by decide) (by decide) (by decide) rfl
  exact ⟨h.1, h.2.2.2.2 (by decide)⟩

/-! ## C4: upload validation -/

theorem allowed_file_eq_true (filename mimetype : String) :
    allowed_file filename mimetype = true ↔
      (pyLower (pathSuffix filename) ∈ ALLOWED_EXT ∧
       (mimetype = "" ∨ mimetype ∈ ALLOWED_MIMETYPES)) := by
  unfold allowed_file
  by_cases h1 : pyLower (pathSuffix filename) ∈ ALLOWED_EXT
  · rw [if_neg (not_not_intro h1)]
    by_cases h2 : mimetype ≠ "" ∧ ¬ (mimetype ∈ ALLOWED_MIMETYPES)
    · rw [if_pos h2]
      simp only [Bool.false_eq_true, false_iff]
      intro hc
      rcases hc.2 with he | hm
      · exact h2.1 he
      · exact h2.2 hm
    · rw [if_neg h2]
      simp only [true_iff]
      refine ⟨h1, ?_⟩
      by_cases he : mimetype = ""
      · exact Or.inl he
      · rcases not_and_or.mp h2 with hx | hx
        · exact absurd (not_not.mp hx) he
        · exact Or.inr (not_not.mp hx)
  · rw [if_pos h1]
    simp only [Bool.false_eq_true, false_iff]
    exact fun hc => h1 hc.1

/-- C4: the photo upload is accepted exactly when the lower-cased
extension of the filename is png, jpg or jpeg, the declared content type
is absent (the empty string, as werkzeug reports a missing type) or one
of image png and image jpeg, and the measured byte size is at most
2 MiB; any other extension, any other declared type, or a strictly
larger size is rejected. -/
theorem c4_upload_validation (filename mimetype : String) (size : Nat) :
    upload_accepted filename mimetype size = true ↔
      (pyLower (pathSuffix filename) ∈ ALLOWED_EXT ∧
       (mimetype = "" ∨ mimetype ∈ ALLOWED_MIMETYPES) ∧
       size ≤ MAX_CONTENT_LENGTH) := by
  unfold upload_accepted
  by_cases h1 : allowed_file filename mimetype = true
  · rw [if_neg (not_not_intro h1)]
    by_cases h2 : size > MAX_CONTENT_LENGTH
    · rw [if_pos h2]
      simp only [Bool.false_eq_true, false_iff]
      intro hc
      omega
    · rw [if_neg h2]
      simp only [true_iff]
      have h := (allowed_file_eq_true filename mimetype).mp h1
      exact ⟨h.1, h.2, by omega⟩
  · rw [if_pos h1]
    simp only [Bool.false_eq_true, false_iff]
    intro hc
    exact h1 ((allowed_file_eq_true filename mimetype).mpr ⟨hc.1, hc.2.1⟩)

/-- C4 witness: the acceptance direction applied to a concrete png file
with no declared type, and to a concrete jpeg at exactly the size
ceiling. -/
theorem c4_witness :
    upload_accepted "a.png" "" 100 = true ∧
    upload_accepted "b.JPEG" "image/jpeg" (2 * 1024 * 1024) = true :=
  ⟨(c4_upload_validation "a.png" "" 100).mpr ⟨by decide, Or.inl rfl, by decide⟩,
   (c4_upload_validation "b.JPEG" "image/jpeg" (2 * 1024 * 1024)).mpr
     ⟨by decide, Or.inr (by decide), by decide⟩⟩

/-! ## C6: flat top-level bindings for template variants -/

/-- C6 counterexample: the templates that receive flat top-level bindings
in addition to the nested data object number five of the eight variants
(template1 and template5 through template8), not four as claimed. -/
theorem c6_counterexample :
    (validTemplates.filter (fun t => t ∈ flatVarTemplates)).length = 5 ∧
    ¬ (validTemplates.filter (fun t => t ∈ flatVarTemplates)).length = 4 ∧
    (build_context "template1" (normalized_data default)).flat.isSome = true := by decide

/-- C6 amended: exactly five of the eight template variants (template1,
template5, template6, template7, template8) receive flat top-level
bindings in addition to the nested data object, the other three receive
only the nested object, and for the five both binding shapes are copied
field for field from the one normalized data value of the single
normalization pass. -/
theorem c6_flat_bindings :
    (validTemplates.filter (fun t => t ∈ flatVarTemplates)).length = 5 ∧
    (∀ (t : String) (nd : NormalizedData), t ∈ flatVarTemplates →
      (build_context t nd).data = nd ∧
      (build_context t nd).flat =
        some ⟨nd.name, nd.title, nd.email, nd.phone, nd.address, nd.summary,
              nd.skills, nd.languages, nd.experience, nd.education⟩) ∧
    (∀ (t : String) (nd : NormalizedData), t ∉ flatVarTemplates →
      (build_context t nd).data = nd ∧ (build_context t nd).flat = none) := by
  refine ⟨by decide, fun t nd ht => ⟨rfl, ?_⟩, fun t nd ht => ⟨rfl, ?_⟩⟩
  · simp only [build_context, if_pos ht]
  · simp only [build_context, if_neg ht]

/-- C6 witness: the flat-binding clause applied to template5 with the
fully defaulted normalized data. -/
theorem c6_witness :
    (build_context "template5" (normalized_data default)).flat =
      some ⟨"", "", "", "", "", "", [], [], [], []⟩ :=
  ((c6_flat_bindings.2.1 "template5" (normalized_data default) (by decide)).2).trans (by decide)

/-! ## C7 and C8: account lookup and case handling -/

theorem find?_append_none {α : Type} (p : α → Bool) {l1 : List α} (l2 : List α)
    (h : l1.find? p = none) : (l1 ++ l2).find? p = l2.find? p := by
  induction l1 with
  | nil => rfl
  | cons a l ih =>
    rw [List.cons_append]
    cases hpa : p a with
    | true =>
      rw [List.find?_cons_of_pos _ hpa] at h
      exact absurd h (by simp)
    | false =>
      have hneg : ¬ p a = true := by rw [hpa]; exact Bool.false_ne_true
      rw [List.find?_cons_of_neg _ hneg] at h
      rw [List.find?_cons_of_neg _ hneg]
      exact ih h

/-- C7: signing up with an email in any letter case and then logging in
with the same email in any other letter case reaches the same account,
because the signup flow lower-cases the email before storing it and the
login flow lower-cases the email before searching.  The password-hash
checker is assumed to accept the hash that signup stored. -/
theorem c7_case_insensitive_signup_login (users : List User)
    (name e1 e2 pwd uid created : String) (hash : String → String)
    (check : String → String → Bool)
    (hsame : pyLower (pyStrip e1) = pyLower (pyStrip e2))
    (hname : pyStrip name ≠ "") (hemail : pyLower (pyStrip e1) ≠ "") (hpwd : pwd ≠ "")
    (hfresh : find_user_by_email users (pyLower (pyStrip e1)) = none)
    (hcheck : check (hash pwd) pwd = true) :
    (signup users name e1 pwd pwd hash uid created).2 =
      AuthResult.success ⟨uid, pyStrip name, pyLower (pyStrip e1)⟩ ∧
    login (signup users name e1 pwd pwd hash uid created).1 e2 pwd check =
      AuthResult.success ⟨uid, pyStrip name, pyLower (pyStrip e1)⟩ := by
  have hsign : signup users name e1 pwd pwd hash uid created =
      (users ++ [⟨uid, pyStrip name, pyLower (pyStrip e1), hash pwd, created⟩],
       .success ⟨uid, pyStrip name, pyLower (pyStrip e1)⟩) := by
    unfold signup
    rw [if_neg (by push_neg; exact ⟨hname, hemail, hpwd, hpwd⟩), if_neg (not_not_intro rfl),
        if_neg (by rw [hfresh]; exact Bool.false_ne_true)]
  have hfresh1 : users.find? (fun u => u.email == pyLower (pyStrip e1)) = none := hfresh
  refine ⟨by rw [hsign], ?_⟩
  rw [hsign]
  show login (users ++ [⟨uid, pyStrip name, pyLower (pyStrip e1), hash pwd, created⟩])
    e2 pwd check = _
  simp only [login, find_user_by_email]
  rw [← hsame, find?_append_none _ _ hfresh1, List.find?_cons_of_pos _ (by simp)]
  simp [hcheck]

/-- C7 witness: registering capitalised and logging in lower-cased finds
the account. -/
theorem c7_witness :
    login (signup [] "Ann" "A@B.com" "pw" "pw" (fun s => String.append "h" s) "u1" "t").1
        "a@b.com" "pw" (fun stored supplied => stored == String.append "h" supplied) =
      AuthResult.success ⟨"u1", "Ann", "a@b.com"⟩ := by
  have h := c7_case_insensitive_signup_login [] "Ann" "A@B.com" "a@b.com" "pw" "u1" "t"
    (fun s => String.append "h" s)
    (fun stored supplied => stored == String.append "h" supplied)
    (by decide) (by decide) (by decide) (by decide) rfl (by decide)
  exact h.2.trans (by decide)

/-- C8 counterexample: the store-level lookup is not case-insensitive.
With one stored account whose email is the lower-cased a at b dot com, a
query equal to it up to letter case but differently capitalised returns
no account. -/
theorem c8_counterexample :
    pyLower "A@B.com" = "a@b.com" ∧
    find_user_by_email [⟨"u1", "Ann", "a@b.com", "h", "t"⟩] "A@B.com" = none := by decide

/-- C8 amended: find_user_by_email performs an exact, case-sensitive
string comparison against the stored email; it returns a stored account
exactly for the query string that equals the stored email verbatim.
Case-insensitive behaviour of the system arises only because both signup
and login lower-case the email before calling the lookup.  For every
store in which no earlier account carries the same email, looking up a
stored account's exact email returns that account. -/
theorem c8_exact_match_lookup (pre post : List User) (u : User)
    (h : ∀ v ∈ pre, v.email ≠ u.email) :
    find_user_by_email (pre ++ u :: post) u.email = some u := by
  unfold find_user_by_email
  rw [find?_append_none _ _ (List.find?_eq_none.mpr (by
    intro v hv
    simp only [beq_iff_eq]
    exact h v hv))]
  rw [List.find?_cons_of_pos _ (by simp)]

/-- C8 witness: the amended exact-match lookup applied to a two-account
store. -/
theorem c8_witness :
    find_user_by_email [⟨"u0", "Bo", "bo@x.com", "h0", "t0"⟩,
        ⟨"u1", "Ann", "a@b.com", "h", "t"⟩] "a@b.com" =
      some ⟨"u1", "Ann", "a@b.com", "h", "t"⟩ :=
  c8_exact_match_lookup [⟨"u0", "Bo", "bo@x.com", "h0", "t0"⟩] []
    ⟨"u1", "Ann", "a@b.com", "h", "t"⟩ (by decide)

/-! ## C9: skills parsing -/

/-- C9: the skills input is split on commas, each piece is stripped, and
only pieces that are non-empty after stripping are kept in order: the
result is a sublist of the stripped pieces, every kept entry is a
non-empty stripped piece of the comma split, and the given concrete
input yields Go, Rust, Python. -/
theorem c9_skills_parsing :
    parse_skills "Go, Rust, , Python" = ["Go", "Rust", "Python"] ∧
    (∀ s : String, (parse_skills s).Sublist ((splitOnChar ',' s).map pyStrip)) ∧
    (∀ (s x : String), x ∈ parse_skills s →
      x ≠ "" ∧ ∃ y ∈ splitOnChar ',' s, x = pyStrip y) := by
  refine ⟨by decide, fun s => List.filter_sublist _, fun s x hx => ?_⟩
  unfold parse_skills at hx
  have hmem := List.mem_filter.mp hx
  have hne : x ≠ "" := by simpa using hmem.2
  rcases List.mem_map.mp hmem.1 with ⟨y, hy, hxy⟩
  exact ⟨hne, y, hy, hxy.symm⟩

/-- C9 witness: the membership clause applied to the concrete input. -/
theorem c9_witness :
    "Python" ≠ "" ∧ ∃ y ∈ splitOnChar ',' "Go, Rust, , Python", "Python" = pyStrip y :=
  c9_skills_parsing.2.2 "Go, Rust, , Python" "Python" (by decide)
